import Mathlib

/-!
Shallow embedding of `src/main.py`: an in-memory transport registry
(routes, vehicles, passengers, schedules) with CRUD operations and JSON
persistence.  Python objects become Lean structures, in-place mutation
becomes explicit state passing, exceptions become `Except`, JSON
documents become the inductive `JValue`, and the file system becomes an
association list from file names to file contents.
-/

namespace Transport

/-- JSON values, as produced by Python's `json` module.  An object is an
association list of string keys (Python dicts have unique keys; lookup
takes the first binding). -/
inductive JValue where
  | jnull : JValue
  | jbool : Bool → JValue
  | jint : Int → JValue
  | jstr : String → JValue
  | jarr : List JValue → JValue
  | jobj : List (String × JValue) → JValue

/-- Python-level exceptions that are not `TransportError`s but can occur
inside `save_to_json` / `load_from_json` and get wrapped into a
`FileOperationError`: `KeyError` from `data['k']`, `TypeError` from
subscripting or iterating a value of the wrong shape, `FileNotFoundError`
from `open`, and `json.JSONDecodeError` from `json.load`. -/
inductive PyErr where
  | keyError : String → PyErr
  | typeError : PyErr
  | fileNotFoundError : String → PyErr
  | jsonDecodeError : PyErr
deriving DecidableEq

/-- `str(e)` for the exceptions above; `str(KeyError('k'))` is the repr
of the key.  Only the `keyError` case is load-bearing; the other
messages are representative. -/
def PyErr.str : PyErr → String
  | .keyError k => "'" ++ k ++ "'"
  | .typeError => "type error"
  | .fileNotFoundError fn => "[Errno 2] No such file or directory: '" ++ fn ++ "'"
  | .jsonDecodeError => "Expecting value: line 1 column 1 (char 0)"

/-- The exception hierarchy of `main.py`, lines 8-30: the base
`TransportError` and its four subclasses, each carrying its message. -/
inductive TransportError where
  | transportError : String → TransportError
  | vehicleNotFoundError : String → TransportError
  | invalidDataError : String → TransportError
  | fileOperationError : String → TransportError
  | routeNotFoundError : String → TransportError
deriving DecidableEq

/-- `data[k]` on a Python value: `KeyError` when the key is absent from a
dict, `TypeError` when `data` is not a dict. -/
def dictGet (data : JValue) (k : String) : Except PyErr JValue :=
  match data with
  | .jobj kvs =>
    match kvs.lookup k with
    | some v => .ok v
    | none => .error (.keyError k)
  | _ => .error .typeError

/-- `data.get(k, d)` on a Python dict: the value when present, the
default when absent; a non-dict has no `.get` (modelled as `TypeError`,
Python raises `AttributeError`). -/
def dictGetD (data : JValue) (k : String) (d : JValue) : Except PyErr JValue :=
  match data with
  | .jobj kvs => .ok ((kvs.lookup k).getD d)
  | _ => .error .typeError

/-- Python stores whatever value `data['k']` held, with no type check.
The typed embedding restricts entity fields to their JSON shapes, so a
present key of the wrong shape reports `typeError` here; every document
produced by `to_dict` satisfies these coercions, and no claim quantifies
over ill-shaped present values. -/
def asInt : JValue → Except PyErr Int
  | .jint n => .ok n
  | _ => .error .typeError

/-- String-shaped coercion; see `asInt`. -/
def asStr : JValue → Except PyErr String
  | .jstr s => .ok s
  | _ => .error .typeError

/-- Iterating a JSON value as a Python list: arrays yield their
elements, anything else raises `TypeError`.  (Python would also iterate
strings and dicts; those exotic iterables are not modelled and no claim
depends on them.) -/
def asPyList : JValue → Except PyErr (List JValue)
  | .jarr xs => .ok xs
  | _ => .error .typeError

/-- A Python list comprehension `[f(x) for x in xs]`: evaluated left to
right, the first exception aborting the whole comprehension. -/
def mapFromDict {α : Type} (f : JValue → Except PyErr α) : List JValue → Except PyErr (List α)
  | [] => .ok []
  | x :: xs => do
    let a ← f x
    let as ← mapFromDict f xs
    pure (a :: as)

/-- `class Vehicle`, lines 34-62. -/
structure Vehicle where
  vehicle_id : Int
  model : String
  capacity : Int
  type : String
deriving DecidableEq

/-- `Vehicle.to_dict`, lines 45-52. -/
def Vehicle.to_dict (v : Vehicle) : JValue :=
  .jobj [("vehicle_id", .jint v.vehicle_id),
         ("model", .jstr v.model),
         ("capacity", .jint v.capacity),
         ("type", .jstr v.type)]

/-- `Vehicle.from_dict`, lines 54-62: the four subscripts are evaluated
in source order (first missing key raises `KeyError`); Python performs
no coercion on the fetched values, so the shape coercions come after all
key lookups. -/
def Vehicle.from_dict (data : JValue) : Except PyErr Vehicle := do
  let v1 ← dictGet data "vehicle_id"
  let v2 ← dictGet data "model"
  let v3 ← dictGet data "capacity"
  let v4 ← dictGet data "type"
  let vid ← asInt v1
  let model ← asStr v2
  let cap ← asInt v3
  let ty ← asStr v4
  pure ⟨vid, model, cap, ty⟩

/-- `class Route`, lines 65-123: `__init__` starts with an empty vehicle
list; the list is owned by the route. -/
structure Route where
  route_id : Int
  number : String
  start_point : String
  end_point : String
  vehicles : List Vehicle
deriving DecidableEq

/-- `Route.add_vehicle`, lines 77-81: appends.  The `isinstance` check
cannot fire in the typed embedding (the argument is always a `Vehicle`). -/
def Route.add_vehicle (r : Route) (v : Vehicle) : Route :=
  { r with vehicles := r.vehicles ++ [v] }

/-- `Route.find_vehicle`, lines 91-96: first vehicle whose id matches,
`None` otherwise. -/
def Route.find_vehicle (r : Route) (vid : Int) : Option Vehicle :=
  r.vehicles.find? (fun v => v.vehicle_id == vid)

/-- `list.remove` by the found object's identity: the found vehicle is
the first whose id matches, so removal deletes exactly that first
matching occurrence. -/
def removeFirst {α : Type} (p : α → Bool) : List α → List α
  | [] => []
  | x :: xs => if p x then xs else x :: removeFirst p xs

/-- `Route.remove_vehicle`, lines 83-89: looks up via `find_vehicle`;
on a hit removes that (first-matching) vehicle, on a miss raises
`VehicleNotFoundError` and leaves the list untouched. -/
def Route.remove_vehicle (r : Route) (vid : Int) : Route × Except TransportError Unit :=
  match r.find_vehicle vid with
  | some _ =>
    ({ r with vehicles := removeFirst (fun v => v.vehicle_id == vid) r.vehicles }, .ok ())
  | none =>
    (r, .error (.vehicleNotFoundError
      s!"Транспортное средство с ID {vid} не найдено в маршруте"))

/-- `Route.to_dict`, lines 98-106: recursively expands the vehicle list. -/
def Route.to_dict (r : Route) : JValue :=
  .jobj [("route_id", .jint r.route_id),
         ("number", .jstr r.number),
         ("start_point", .jstr r.start_point),
         ("end_point", .jstr r.end_point),
         ("vehicles", .jarr (r.vehicles.map Vehicle.to_dict))]

/-- `Route.from_dict`, lines 108-119: the four subscripts in source
order, then `data.get('vehicles', [])` and a loop of
`add_vehicle(Vehicle.from_dict(...))` onto a route that starts with an
empty vehicle list. -/
def Route.from_dict (data : JValue) : Except PyErr Route := do
  let v1 ← dictGet data "route_id"
  let v2 ← dictGet data "number"
  let v3 ← dictGet data "start_point"
  let v4 ← dictGet data "end_point"
  let rid ← asInt v1
  let num ← asStr v2
  let sp ← asStr v3
  let ep ← asStr v4
  let vds ← dictGetD data "vehicles" (.jarr [])
  let vlist ← asPyList vds
  let vehicles ← mapFromDict Vehicle.from_dict vlist
  pure (vehicles.foldl Route.add_vehicle ⟨rid, num, sp, ep, []⟩)

/-- `class Passenger`, lines 126-153. -/
structure Passenger where
  passenger_id : Int
  name : String
  card_number : String
deriving DecidableEq

/-- `Passenger.to_dict`, lines 135-141. -/
def Passenger.to_dict (p : Passenger) : JValue :=
  .jobj [("passenger_id", .jint p.passenger_id),
         ("name", .jstr p.name),
         ("card_number", .jstr p.card_number)]

/-- `Passenger.from_dict`, lines 143-150. -/
def Passenger.from_dict (data : JValue) : Except PyErr Passenger := do
  let v1 ← dictGet data "passenger_id"
  let v2 ← dictGet data "name"
  let v3 ← dictGet data "card_number"
  let pid ← asInt v1
  let nm ← asStr v2
  let cn ← asStr v3
  pure ⟨pid, nm, cn⟩

/-- `class Schedule`, lines 156-186: holds a non-validated `route_id`. -/
structure Schedule where
  schedule_id : Int
  route_id : Int
  departure_time : String
  arrival_time : String
deriving DecidableEq

/-- `Schedule.to_dict`, lines 166-173. -/
def Schedule.to_dict (s : Schedule) : JValue :=
  .jobj [("schedule_id", .jint s.schedule_id),
         ("route_id", .jint s.route_id),
         ("departure_time", .jstr s.departure_time),
         ("arrival_time", .jstr s.arrival_time)]

/-- `Schedule.from_dict`, lines 175-183. -/
def Schedule.from_dict (data : JValue) : Except PyErr Schedule := do
  let v1 ← dictGet data "schedule_id"
  let v2 ← dictGet data "route_id"
  let v3 ← dictGet data "departure_time"
  let v4 ← dictGet data "arrival_time"
  let sid ← asInt v1
  let rid ← asInt v2
  let dt ← asStr v3
  let at_ ← asStr v4
  pure ⟨sid, rid, dt, at_⟩

/-- `class TransportSystem`, lines 189-195: three independent ordered
collections. -/
structure TransportSystem where
  routes : List Route
  passengers : List Passenger
  schedules : List Schedule
deriving DecidableEq

/-- `TransportSystem.create_route`, lines 198-202: appends.  The
`isinstance` check cannot fire in the typed embedding. -/
def TransportSystem.create_route (ts : TransportSystem) (r : Route) : TransportSystem :=
  { ts with routes := ts.routes ++ [r] }

/-- `TransportSystem.find_route`, lines 223-228: first route whose id
matches, `None` otherwise. -/
def TransportSystem.find_route (ts : TransportSystem) (rid : Int) : Option Route :=
  ts.routes.find? (fun r => r.route_id == rid)

/-- `TransportSystem.read_route`, lines 204-209: `find_route`, raising
`RouteNotFoundError` on a miss. -/
def TransportSystem.read_route (ts : TransportSystem) (rid : Int) : Except TransportError Route :=
  match ts.find_route rid with
  | some r => .ok r
  | none => .error (.routeNotFoundError s!"Маршрут с ID {rid} не найден")

/-- A single `setattr(route, key, value)` from `update_route`.  The five
constructors with a payload are the keys for which `hasattr(route, key)`
holds; `unknown_key` is any key naming no attribute, which the
`hasattr` guard silently skips.  (Python would accept arbitrarily typed
values; the typed embedding keeps each attribute at its declared type.) -/
inductive RouteChange where
  | set_route_id : Int → RouteChange
  | set_number : String → RouteChange
  | set_start_point : String → RouteChange
  | set_end_point : String → RouteChange
  | set_vehicles : List Vehicle → RouteChange
  | unknown_key : String → RouteChange
deriving DecidableEq

/-- One iteration of the `for key, value in kwargs.items()` loop of
`update_route`, lines 214-216. -/
def Route.applyChange (r : Route) : RouteChange → Route
  | .set_route_id v => { r with route_id := v }
  | .set_number v => { r with number := v }
  | .set_start_point v => { r with start_point := v }
  | .set_end_point v => { r with end_point := v }
  | .set_vehicles v => { r with vehicles := v }
  | .unknown_key _ => r

/-- The whole kwargs loop, applied in keyword order. -/
def Route.applyChanges (r : Route) (cs : List RouteChange) : Route :=
  cs.foldl Route.applyChange r

/-- `setattr` mutates the found route object in place; that object is
the first list element whose id matches, so the list ends up with its
first matching element replaced. -/
def updateFirst {α : Type} (p : α → Bool) (f : α → α) : List α → List α
  | [] => []
  | x :: xs => if p x then f x :: xs else x :: updateFirst p f xs

/-- `TransportSystem.update_route`, lines 211-216: looks up via
`read_route` (propagating `RouteNotFoundError`), then overwrites every
recognised key on the found route. -/
def TransportSystem.update_route (ts : TransportSystem) (rid : Int) (cs : List RouteChange) :
    TransportSystem × Except TransportError Unit :=
  match ts.read_route rid with
  | .error e => (ts, .error e)
  | .ok _ =>
    ({ ts with routes :=
        updateFirst (fun r => r.route_id == rid) (fun r => r.applyChanges cs) ts.routes },
     .ok ())

/-- `TransportSystem.delete_route`, lines 218-221: looks up via
`read_route`, then `list.remove` of the found object, i.e. removal of
the first route whose id matches. -/
def TransportSystem.delete_route (ts : TransportSystem) (rid : Int) :
    TransportSystem × Except TransportError Unit :=
  match ts.read_route rid with
  | .error e => (ts, .error e)
  | .ok _ =>
    ({ ts with routes := removeFirst (fun r => r.route_id == rid) ts.routes }, .ok ())

/-- `TransportSystem.create_passenger`, lines 230-234: appends; the
`isinstance` check cannot fire in the typed embedding. -/
def TransportSystem.create_passenger (ts : TransportSystem) (p : Passenger) : TransportSystem :=
  { ts with passengers := ts.passengers ++ [p] }

/-- `TransportSystem.read_passenger`, lines 236-241: linear scan,
raising the base `TransportError` (not a not-found subclass) on a miss. -/
def TransportSystem.read_passenger (ts : TransportSystem) (pid : Int) :
    Except TransportError Passenger :=
  match ts.passengers.find? (fun p => p.passenger_id == pid) with
  | some p => .ok p
  | none => .error (.transportError s!"Пассажир с ID {pid} не найден")

/-- A file on disk, as far as `json.load` is concerned: either text that
is not valid JSON, or text whose parse is a `JValue`.  (`json.dump` then
`json.load` is the identity on the documents this program writes, so the
embedding stores the parsed document instead of its text.) -/
inductive FileContent where
  | malformed : FileContent
  | doc : JValue → FileContent

/-- The file system: newest write first, `open(fn)` reads the first
binding. -/
abbrev FS := List (String × FileContent)

/-- `open(fn, 'r')` followed by `json.load`. -/
def fsRead (fs : FS) (fn : String) : Option FileContent :=
  fs.lookup fn

/-- `open(fn, 'w')` + `json.dump`: creates or truncates. -/
def fsWrite (fs : FS) (fn : String) (c : FileContent) : FS :=
  (fn, c) :: fs

/-- The `data` dict built by `save_to_json`, lines 247-251. -/
def TransportSystem.to_data (ts : TransportSystem) : JValue :=
  .jobj [("routes", .jarr (ts.routes.map Route.to_dict)),
         ("passengers", .jarr (ts.passengers.map Passenger.to_dict)),
         ("schedules", .jarr (ts.schedules.map Schedule.to_dict))]

/-- `TransportSystem.save_to_json`, lines 244-255: writes the document;
in the embedding the write itself cannot fail, so the
`FileOperationError` wrapping branch is unreachable. -/
def TransportSystem.save_to_json (ts : TransportSystem) (fs : FS) (fn : String) :
    FS × Except TransportError Unit :=
  (fsWrite fs fn (.doc ts.to_data), .ok ())

/-- `str(e)` wrapping of `load_from_json`, line 268. -/
def wrapLoad (e : PyErr) : TransportError :=
  .fileOperationError ("Ошибка загрузки JSON: " ++ e.str)

/-- One of the three list comprehensions of `load_from_json`:
`[X.from_dict(d) for d in data.get(key, [])]`. -/
def parseEntities {α : Type} (j : JValue) (key : String)
    (f : JValue → Except PyErr α) : Except PyErr (List α) := do
  let v ← dictGetD j key (.jarr [])
  let ds ← asPyList v
  mapFromDict f ds

/-- `TransportSystem.load_from_json`, lines 257-268: read and parse the
file, then assign `self.routes`, `self.passengers`, `self.schedules` in
that order; each assignment happens only after its whole comprehension
succeeded, and any exception is wrapped into a `FileOperationError` —
leaving the collections already assigned by earlier statements replaced. -/
def TransportSystem.load_from_json (ts : TransportSystem) (fs : FS) (fn : String) :
    TransportSystem × Except TransportError Unit :=
  match fsRead fs fn with
  | none => (ts, .error (wrapLoad (.fileNotFoundError fn)))
  | some .malformed => (ts, .error (wrapLoad .jsonDecodeError))
  | some (.doc j) =>
    match parseEntities j "routes" Route.from_dict with
    | .error e => (ts, .error (wrapLoad e))
    | .ok rs =>
      let ts1 := { ts with routes := rs }
      match parseEntities j "passengers" Passenger.from_dict with
      | .error e => (ts1, .error (wrapLoad e))
      | .ok ps =>
        let ts2 := { ts1 with passengers := ps }
        match parseEntities j "schedules" Schedule.from_dict with
        | .error e => (ts2, .error (wrapLoad e))
        | .ok ss => ({ ts2 with schedules := ss }, .ok ())

/-- Whether an operation returned normally rather than raising. -/
def isOk {ε α : Type} : Except ε α → Bool
  | .ok _ => true
  | .error _ => false

instance exceptDecEq {ε α : Type} [DecidableEq ε] [DecidableEq α] :
    DecidableEq (Except ε α)
  | .ok a, .ok b =>
    if h : a = b then .isTrue (by rw [h]) else .isFalse (by simp [h])
  | .ok _, .error _ => .isFalse (by simp)
  | .error _, .ok _ => .isFalse (by simp)
  | .error e, .error f =>
    if h : e = f then .isTrue (by rw [h]) else .isFalse (by simp [h])

/-- Sample data for the concrete witnesses and counterexamples below
(the spec's own test scenario uses a route `(1, "t77", "A", "B")` with a
vehicle `(1, "Bus", 50, "Bus")`). -/
def busW : Vehicle := ⟨1, "Bus", 50, "Bus"⟩

/-- A route with id 1 holding one vehicle. -/
def routeW : Route := ⟨1, "t77", "A", "B", [busW]⟩

/-- A different route that shares id 1 with `routeW`. -/
def routeW2 : Route := ⟨1, "99", "C", "D", []⟩

/-- A route with the fresh id 2. -/
def routeW3 : Route := ⟨2, "37", "K", "V", []⟩

/-- A sample passenger. -/
def passW : Passenger := ⟨1, "Ivan", "0021095222"⟩

/-- A registry holding just `routeW`. -/
def tsW : TransportSystem := ⟨[routeW], [], []⟩

/-- A registry holding two routes that share id 1. -/
def tsDup : TransportSystem := ⟨[routeW, routeW2], [], []⟩

/-- A registry with one passenger and no routes. -/
def tsC2 : TransportSystem := ⟨[], [passW], []⟩

/-- A file whose routes list parses but whose passengers list has an
entry missing the required keys `name` and `card_number`. -/
def fsC2 : FS :=
  [("f.json", .doc (.jobj
    [("routes", .jarr [Route.to_dict ⟨7, "n", "s", "e", []⟩]),
     ("passengers", .jarr [.jobj [("passenger_id", .jint 1)]])]))]

/-! ### Helper lemmas -/

theorem except_bind_ok {ε α β : Type} (a : α) (k : α → Except ε β) :
    (Except.ok a : Except ε α) >>= k = k a := rfl

theorem except_bind_error {ε α β : Type} (e : ε) (k : α → Except ε β) :
    (Except.error e : Except ε α) >>= k = .error e := rfl

theorem mapFromDict_map {α : Type} (f : JValue → Except PyErr α) (g : α → JValue)
    (hfg : ∀ x, f (g x) = .ok x) (xs : List α) :
    mapFromDict f (xs.map g) = .ok xs := by
  induction xs with
  | nil => rfl
  | cons a as ih =>
    show f (g a) >>= _ = _
    rw [hfg a, except_bind_ok]
    show mapFromDict f (as.map g) >>= _ = _
    rw [ih, except_bind_ok]
    rfl

theorem foldl_add_vehicle (vs : List Vehicle) (r : Route) :
    vs.foldl Route.add_vehicle r = { r with vehicles := r.vehicles ++ vs } := by
  induction vs generalizing r with
  | nil => simp
  | cons v vs ih => simp [List.foldl, Route.add_vehicle, ih]

theorem vehicle_from_dict_inv (v : Vehicle) : Vehicle.from_dict v.to_dict = .ok v := rfl

theorem passenger_from_dict_inv (p : Passenger) :
    Passenger.from_dict p.to_dict = .ok p := rfl

theorem schedule_from_dict_inv (s : Schedule) : Schedule.from_dict s.to_dict = .ok s := rfl

theorem route_from_dict_inv (r : Route) : Route.from_dict r.to_dict = .ok r := by
  show mapFromDict Vehicle.from_dict (r.vehicles.map Vehicle.to_dict) >>= _ = _
  rw [mapFromDict_map _ _ vehicle_from_dict_inv, except_bind_ok]
  show Except.ok (r.vehicles.foldl Route.add_vehicle ⟨r.route_id, r.number, r.start_point, r.end_point, []⟩) = _
  rw [foldl_add_vehicle]
  simp

theorem fsRead_fsWrite (fs : FS) (fn : String) (c : FileContent) :
    fsRead (fsWrite fs fn c) fn = some c := by
  simp [fsRead, fsWrite, List.lookup]

theorem parse_routes_to_data (ts : TransportSystem) :
    parseEntities ts.to_data "routes" Route.from_dict = .ok ts.routes := by
  show mapFromDict Route.from_dict (ts.routes.map Route.to_dict) = _
  exact mapFromDict_map _ _ route_from_dict_inv ts.routes

theorem parse_passengers_to_data (ts : TransportSystem) :
    parseEntities ts.to_data "passengers" Passenger.from_dict = .ok ts.passengers := by
  show mapFromDict Passenger.from_dict (ts.passengers.map Passenger.to_dict) = _
  exact mapFromDict_map _ _ passenger_from_dict_inv ts.passengers

theorem parse_schedules_to_data (ts : TransportSystem) :
    parseEntities ts.to_data "schedules" Schedule.from_dict = .ok ts.schedules := by
  show mapFromDict Schedule.from_dict (ts.schedules.map Schedule.to_dict) = _
  exact mapFromDict_map _ _ schedule_from_dict_inv ts.schedules

theorem find?_decomp {α : Type} (p : α → Bool) (xs : List α) (x : α)
    (h : xs.find? p = some x) :
    ∃ l1 l2, xs = l1 ++ x :: l2 ∧ (∀ y ∈ l1, p y = false) ∧ p x = true := by
  induction xs with
  | nil => simp at h
  | cons a as ih =>
    by_cases hpa : p a = true
    · rw [List.find?_cons_of_pos _ hpa] at h
      obtain rfl := Option.some.inj h
      exact ⟨[], as, rfl, by simp, hpa⟩
    · rw [List.find?_cons_of_neg _ hpa] at h
      obtain ⟨l1, l2, rfl, h2, h3⟩ := ih h
      refine ⟨a :: l1, l2, rfl, ?_, h3⟩
      intro y hy
      rcases List.mem_cons.mp hy with rfl | hy
      · exact Bool.of_not_eq_true hpa
      · exact h2 y hy

theorem removeFirst_append_of_none {α : Type} (p : α → Bool) (l1 l2 : List α)
    (h : ∀ y ∈ l1, p y = false) :
    removeFirst p (l1 ++ l2) = l1 ++ removeFirst p l2 := by
  induction l1 with
  | nil => rfl
  | cons a as ih =>
    have ha : p a = false := h a (by simp)
    simp only [List.cons_append, removeFirst, ha, Bool.false_eq_true, if_false, List.append_eq]
    rw [ih (fun y hy => h y (by simp [hy]))]

theorem removeFirst_cons_of_pos {α : Type} (p : α → Bool) (x : α) (xs : List α)
    (h : p x = true) : removeFirst p (x :: xs) = xs := by
  simp [removeFirst, h]

theorem updateFirst_append_of_none {α : Type} (p : α → Bool) (f : α → α) (l1 l2 : List α)
    (h : ∀ y ∈ l1, p y = false) :
    updateFirst p f (l1 ++ l2) = l1 ++ updateFirst p f l2 := by
  induction l1 with
  | nil => rfl
  | cons a as ih =>
    have ha : p a = false := h a (by simp)
    simp only [List.cons_append, updateFirst, ha, Bool.false_eq_true, if_false, List.append_eq]
    rw [ih (fun y hy => h y (by simp [hy]))]

theorem updateFirst_cons_of_pos {α : Type} (p : α → Bool) (f : α → α) (x : α) (xs : List α)
    (h : p x = true) : updateFirst p f (x :: xs) = f x :: xs := by
  simp [updateFirst, h]

theorem updateFirst_congr_id {α : Type} (p : α → Bool) (f : α → α) (hf : ∀ x, f x = x)
    (xs : List α) : updateFirst p f xs = xs := by
  induction xs with
  | nil => rfl
  | cons a as ih => cases hpa : p a <;> simp [updateFirst, hpa, hf, ih]

theorem applyChanges_unknown (r : Route) (ks : List String) :
    r.applyChanges (ks.map RouteChange.unknown_key) = r := by
  induction ks generalizing r with
  | nil => rfl
  | cons k ks ih => exact ih r

/-- The branch of `read_route` taken when a matching route exists. -/
theorem read_route_of_find (ts : TransportSystem) (rid : Int) (r : Route)
    (h : ts.find_route rid = some r) : ts.read_route rid = .ok r := by
  simp [TransportSystem.read_route, h]

/-! ### Claims -/

/-- Claim C1: for every registry state, `save_to_json` to a file followed
by `load_from_json` of that file into a fresh `TransportSystem` yields a
registry whose routes, passengers and schedules are field-for-field equal
to the originals, in the same order. -/
theorem save_load_json_roundtrip (ts : TransportSystem) (fs : FS) (fn : String) :
    TransportSystem.load_from_json ⟨[], [], []⟩ (ts.save_to_json fs fn).1 fn = (ts, .ok ()) := by
  show TransportSystem.load_from_json ⟨[], [], []⟩ (fsWrite fs fn (.doc ts.to_data)) fn = _
  simp only [TransportSystem.load_from_json, fsRead_fsWrite, parse_routes_to_data,
    parse_passengers_to_data, parse_schedules_to_data]

theorem find?_append_first {α : Type} (p : α → Bool) (l1 l2 : List α) (x : α)
    (h1 : ∀ y ∈ l1, p y = false) (hx : p x = true) :
    (l1 ++ x :: l2).find? p = some x := by
  induction l1 with
  | nil => rw [List.nil_append, List.find?_cons_of_pos _ hx]
  | cons a as ih =>
    have ha : p a = false := h1 a (by simp)
    rw [List.cons_append, List.find?_cons_of_neg _ (by simp [ha])]
    exact ih (fun y hy => h1 y (by simp [hy]))

/-- Claim C3 fails as stated: in a registry already holding a route with
id 1, creating another route with id 1 and then reading id 1 back
returns the pre-existing route, not the one just created. -/
theorem create_then_read_counterexample :
    (tsW.create_route routeW2).read_route routeW2.route_id ≠ .ok routeW2 := by
  decide

/-- Claim C3 (amended): when no route already in the registry has the new
route's id, `create_route(r)` followed by `read_route(r.route_id)`
returns an entity equal to the created route.  (With a pre-existing
duplicate id, the lookup returns the earlier first match instead.) -/
theorem create_then_read (ts : TransportSystem) (r : Route)
    (h : ∀ r' ∈ ts.routes, r'.route_id ≠ r.route_id) :
    (ts.create_route r).read_route r.route_id = .ok r := by
  have h1 : ∀ y ∈ ts.routes, (y.route_id == r.route_id) = false := fun y hy => by
    simpa using h y hy
  have h2 : (ts.create_route r).find_route r.route_id = some r := by
    show (ts.routes ++ [r]).find? _ = some r
    have : ts.routes ++ [r] = ts.routes ++ r :: [] := rfl
    rw [this]
    exact find?_append_first _ _ _ _ h1 (by simp)
  exact read_route_of_find _ _ _ h2

theorem create_then_read_witness :
    (∀ r' ∈ tsW.routes, r'.route_id ≠ routeW3.route_id) ∧
    (tsW.create_route routeW3).read_route routeW3.route_id = .ok routeW3 :=
  ⟨by decide, create_then_read tsW routeW3 (by decide)⟩

/-- Claim C4 fails as stated: in a registry with two routes sharing id 1,
`delete_route(1)` removes one of them, but the subsequent `read_route(1)`
still succeeds (it finds the remaining duplicate) rather than failing
with the route-not-found error. -/
theorem delete_then_read_counterexample :
    (tsDup.find_route 1).isSome = true ∧
    (tsDup.delete_route 1).1.routes.length + 1 = tsDup.routes.length ∧
    isOk ((tsDup.delete_route 1).1.read_route 1) = true := by
  decide

/-- Claim C4 (amended): in a registry containing a route with the given
id, `delete_route(id)` removes exactly the first route with that id
(the length decreases by one and all other routes remain in order) and
leaves passengers and schedules untouched; the subsequent
`read_route(id)` fails with the route-not-found error provided exactly
one route carried that id. -/
theorem delete_route_spec (ts : TransportSystem) (rid : Int) (r : Route)
    (h : ts.find_route rid = some r) :
    ∃ l1 l2, ts.routes = l1 ++ r :: l2 ∧ r.route_id = rid ∧
      (∀ y ∈ l1, y.route_id ≠ rid) ∧
      (ts.delete_route rid).1.routes = l1 ++ l2 ∧
      (ts.delete_route rid).1.routes.length + 1 = ts.routes.length ∧
      (ts.delete_route rid).1.passengers = ts.passengers ∧
      (ts.delete_route rid).1.schedules = ts.schedules ∧
      (ts.delete_route rid).2 = .ok () ∧
      (ts.routes.countP (fun y => y.route_id == rid) = 1 →
        (ts.delete_route rid).1.read_route rid
          = .error (.routeNotFoundError s!"Маршрут с ID {rid} не найден")) := by
  have h' : ts.routes.find? (fun x => x.route_id == rid) = some r := h
  obtain ⟨l1, l2, hsplit, hl1, hp⟩ :=
    find?_decomp (fun x => x.route_id == rid) ts.routes r h'
  have hdel : ts.delete_route rid =
      ({ ts with routes := removeFirst (fun x => x.route_id == rid) ts.routes }, .ok ()) := by
    simp [TransportSystem.delete_route, read_route_of_find ts rid r h]
  have hrem : removeFirst (fun x => x.route_id == rid) ts.routes = l1 ++ l2 := by
    rw [hsplit, removeFirst_append_of_none _ _ _ hl1,
      removeFirst_cons_of_pos (fun x => x.route_id == rid) r l2 hp]
  refine ⟨l1, l2, hsplit, by simpa using hp, fun y hy => by simpa using hl1 y hy,
    by rw [hdel]; exact hrem, ?_, by rw [hdel], by rw [hdel], by rw [hdel], ?_⟩
  · rw [hdel]
    show (removeFirst _ ts.routes).length + 1 = _
    rw [hrem, hsplit]
    simp only [List.length_append, List.length_cons]
    omega
  · intro huniq
    rw [hsplit, List.countP_append] at huniq
    simp only [List.countP_cons, hp, if_true] at huniq
    have hz1 : l1.countP (fun y => y.route_id == rid) = 0 := by omega
    have hz2 : l2.countP (fun y => y.route_id == rid) = 0 := by omega
    have hall : ∀ y ∈ l1 ++ l2, (y.route_id == rid) = false := by
      intro y hy
      rcases List.mem_append.mp hy with hy1 | hy2
      · exact List.countP_eq_zero.mp hz1 y hy1 |> Bool.of_not_eq_true
      · exact List.countP_eq_zero.mp hz2 y hy2 |> Bool.of_not_eq_true
    have hfind : (ts.delete_route rid).1.find_route rid = none := by
      rw [hdel]
      show (removeFirst _ ts.routes).find? _ = none
      rw [hrem]
      exact List.find?_eq_none.mpr (fun y hy => by simp [hall y hy])
    simp [TransportSystem.read_route, hfind]

theorem delete_route_spec_witness :
    tsW.find_route 1 = some routeW ∧
    (tsW.delete_route 1).1.routes.length + 1 = tsW.routes.length ∧
    (tsW.delete_route 1).1.read_route 1
      = .error (.routeNotFoundError "Маршрут с ID 1 не найден") := by
  have h := delete_route_spec tsW 1 routeW (by decide)
  obtain ⟨l1, l2, _, _, _, _, hlen, _, _, _, hread⟩ := h
  exact ⟨by decide, hlen, hread (by decide)⟩

/-- Claim C5: when the registry contains a route with the given id,
`update_route(id, end_point := x)` rewrites exactly the first matching
route's `end_point`, leaving its other four fields, every other route,
and the passenger and schedule collections unchanged; and an update all
of whose keys name no attribute of `Route` leaves the registry entirely
unchanged. -/
theorem update_end_point_frame (ts : TransportSystem) (rid : Int) (r : Route) (x : String)
    (h : ts.find_route rid = some r) :
    (∃ l1 l2, ts.routes = l1 ++ r :: l2 ∧ r.route_id = rid ∧
      (∀ y ∈ l1, y.route_id ≠ rid) ∧
      (ts.update_route rid [.set_end_point x]).1.routes
        = l1 ++ { r with end_point := x } :: l2 ∧
      (ts.update_route rid [.set_end_point x]).1.passengers = ts.passengers ∧
      (ts.update_route rid [.set_end_point x]).1.schedules = ts.schedules ∧
      (ts.update_route rid [.set_end_point x]).2 = .ok ()) ∧
    (∀ (ks : List String) (rid' : Int),
      (ts.update_route rid' (ks.map RouteChange.unknown_key)).1 = ts) := by
  constructor
  · have h' : ts.routes.find? (fun y => y.route_id == rid) = some r := h
    obtain ⟨l1, l2, hsplit, hl1, hp⟩ :=
      find?_decomp (fun y => y.route_id == rid) ts.routes r h'
    have hup : ts.update_route rid [.set_end_point x] =
        ({ ts with routes := (updateFirst (fun y => y.route_id == rid)
            (fun y => y.applyChanges [.set_end_point x]) ts.routes) }, .ok ()) := by
      simp [TransportSystem.update_route, read_route_of_find ts rid r h]
    have hrw : updateFirst (fun y => y.route_id == rid)
        (fun y => y.applyChanges [.set_end_point x]) ts.routes
        = l1 ++ { r with end_point := x } :: l2 := by
      rw [hsplit, updateFirst_append_of_none _ _ _ _ hl1,
        updateFirst_cons_of_pos (fun y => y.route_id == rid)
          (fun y => y.applyChanges [.set_end_point x]) r l2 hp]
      rfl
    exact ⟨l1, l2, hsplit, by simpa using hp, fun y hy => by simpa using hl1 y hy,
      by rw [hup]; exact hrw, by rw [hup], by rw [hup], by rw [hup]⟩
  · intro ks rid'
    cases hrr : ts.read_route rid' with
    | error e => simp [TransportSystem.update_route, hrr]
    | ok r' =>
      simp [TransportSystem.update_route, hrr,
        updateFirst_congr_id _ _ (fun y => applyChanges_unknown y ks)]

theorem update_end_point_frame_witness :
    tsW.find_route 1 = some routeW ∧
    (tsW.update_route 1 (["color"].map RouteChange.unknown_key)).1 = tsW :=
  ⟨by decide, (update_end_point_frame tsW 1 routeW "C" (by decide)).2 ["color"] 1⟩

/-- Claim C6: `Route.remove_vehicle(id)` on an id matching no vehicle
raises the vehicle-not-found error and leaves the route unchanged; on a
matching id it deletes exactly the first matching occurrence (length
decreases by one, the occurrence count of that vehicle drops by one, the
rest of the list keeps its order). -/
theorem remove_vehicle_spec (r : Route) (vid : Int) :
    (r.find_vehicle vid = none →
      (r.remove_vehicle vid).1 = r ∧
      (r.remove_vehicle vid).2 = .error (.vehicleNotFoundError
        s!"Транспортное средство с ID {vid} не найдено в маршруте")) ∧
    (∀ v, r.find_vehicle vid = some v →
      ∃ l1 l2, r.vehicles = l1 ++ v :: l2 ∧ v.vehicle_id = vid ∧
        (∀ y ∈ l1, y.vehicle_id ≠ vid) ∧
        (r.remove_vehicle vid).1.vehicles = l1 ++ l2 ∧
        (r.remove_vehicle vid).1.vehicles.length + 1 = r.vehicles.length ∧
        (r.remove_vehicle vid).1.vehicles.count v + 1 = r.vehicles.count v ∧
        (r.remove_vehicle vid).2 = .ok ()) := by
  constructor
  · intro hnone
    constructor <;> simp [Route.remove_vehicle, hnone]
  · intro v hfind
    have hfind' : r.vehicles.find? (fun y => y.vehicle_id == vid) = some v := hfind
    obtain ⟨l1, l2, hsplit, hl1, hp⟩ :=
      find?_decomp (fun y => y.vehicle_id == vid) r.vehicles v hfind'
    have hrm : r.remove_vehicle vid =
        ({ r with vehicles := removeFirst (fun y => y.vehicle_id == vid) r.vehicles }, .ok ()) := by
      simp [Route.remove_vehicle, hfind]
    have hrem : removeFirst (fun y => y.vehicle_id == vid) r.vehicles = l1 ++ l2 := by
      rw [hsplit, removeFirst_append_of_none _ _ _ hl1,
        removeFirst_cons_of_pos (fun y => y.vehicle_id == vid) v l2 hp]
    refine ⟨l1, l2, hsplit, by simpa using hp, fun y hy => by simpa using hl1 y hy,
      by rw [hrm]; exact hrem, ?_, ?_, by rw [hrm]⟩
    · rw [hrm]
      show (removeFirst _ r.vehicles).length + 1 = _
      rw [hrem, hsplit]
      simp only [List.length_append, List.length_cons]
      omega
    · rw [hrm]
      show (removeFirst _ r.vehicles).count v + 1 = _
      rw [hrem, hsplit]
      simp [List.count_append]
      omega

theorem remove_vehicle_spec_witness :
    routeW.find_vehicle 1 = some busW ∧
    (routeW.remove_vehicle 1).1.vehicles.length + 1 = routeW.vehicles.length := by
  have h := (remove_vehicle_spec routeW 1).2 busW (by decide)
  obtain ⟨_, _, _, _, _, _, hlen, _, _⟩ := h
  exact ⟨by decide, hlen⟩

/-- Claim C9: `update_route` overwrites every recognised key, including
the identity field `route_id` and the whole `vehicles` list; after
setting a new id, the route is found under that id (provided no earlier
route already carried it). -/
theorem update_route_overwrites_identity (ts : TransportSystem) (rid newId : Int)
    (vs : List Vehicle) (r : Route) (h : ts.find_route rid = some r) :
    ∃ l1 l2, ts.routes = l1 ++ r :: l2 ∧ r.route_id = rid ∧
      (∀ y ∈ l1, y.route_id ≠ rid) ∧
      (ts.update_route rid [.set_route_id newId, .set_vehicles vs]).1.routes
        = l1 ++ { r with route_id := newId, vehicles := vs } :: l2 ∧
      (ts.update_route rid [.set_route_id newId, .set_vehicles vs]).2 = .ok () ∧
      ((∀ y ∈ ts.routes, y.route_id ≠ newId) →
        (ts.update_route rid [.set_route_id newId, .set_vehicles vs]).1.find_route newId
          = some { r with route_id := newId, vehicles := vs }) := by
  have h' : ts.routes.find? (fun y => y.route_id == rid) = some r := h
  obtain ⟨l1, l2, hsplit, hl1, hp⟩ :=
    find?_decomp (fun y => y.route_id == rid) ts.routes r h'
  have hup : ts.update_route rid [.set_route_id newId, .set_vehicles vs] =
      ({ ts with routes := (updateFirst (fun y => y.route_id == rid)
          (fun y => y.applyChanges [.set_route_id newId, .set_vehicles vs]) ts.routes) },
       .ok ()) := by
    simp [TransportSystem.update_route, read_route_of_find ts rid r h]
  have hrw : updateFirst (fun y => y.route_id == rid)
      (fun y => y.applyChanges [.set_route_id newId, .set_vehicles vs]) ts.routes
      = l1 ++ { r with route_id := newId, vehicles := vs } :: l2 := by
    rw [hsplit, updateFirst_append_of_none _ _ _ _ hl1,
      updateFirst_cons_of_pos (fun y => y.route_id == rid)
        (fun y => y.applyChanges [.set_route_id newId, .set_vehicles vs]) r l2 hp]
    rfl
  refine ⟨l1, l2, hsplit, by simpa using hp, fun y hy => by simpa using hl1 y hy,
    by rw [hup]; exact hrw, by rw [hup], ?_⟩
  · intro hfresh
    have hl1' : ∀ y ∈ l1, (y.route_id == newId) = false := fun y hy => by
      have : y ∈ ts.routes := hsplit ▸ List.mem_append_left _ hy
      simpa using hfresh y this
    rw [hup]
    show (updateFirst _ _ ts.routes).find? (fun y => y.route_id == newId) = _
    rw [hrw]
    exact find?_append_first _ _ _ _ hl1' (by simp)

theorem update_route_overwrites_identity_witness :
    tsW.find_route 1 = some routeW ∧
    (tsW.update_route 1 [.set_route_id 5, .set_vehicles []]).1.find_route 5
      = some { routeW with route_id := 5, vehicles := [] } := by
  have h := update_route_overwrites_identity tsW 1 5 [] routeW (by decide)
  obtain ⟨l1, l2, _, _, _, _, _, hfind⟩ := h
  exact ⟨by decide, hfind (by decide)⟩

/-- Claim C10: no create operation enforces id uniqueness (appending the
same entity twice yields a collection with two equal ids), every lookup
returns the first element in insertion order whose id matches, and the
lookups are pure functions of the state. -/
theorem duplicate_ids_and_first_match (ts : TransportSystem) (r : Route) (p : Passenger)
    (rt : Route) (v : Vehicle) :
    ((ts.create_route r).create_route r).routes = ts.routes ++ [r, r] ∧
    ((ts.create_passenger p).create_passenger p).passengers = ts.passengers ++ [p, p] ∧
    ((rt.add_vehicle v).add_vehicle v).vehicles = rt.vehicles ++ [v, v] ∧
    (∀ rid l1 x l2, ts.routes = l1 ++ x :: l2 → x.route_id = rid →
      (∀ y ∈ l1, y.route_id ≠ rid) →
      ts.find_route rid = some x ∧ ts.read_route rid = .ok x) ∧
    (∀ vid l1 x l2, rt.vehicles = l1 ++ x :: l2 → x.vehicle_id = vid →
      (∀ y ∈ l1, y.vehicle_id ≠ vid) →
      rt.find_vehicle vid = some x) ∧
    (∀ pid l1 x l2, ts.passengers = l1 ++ x :: l2 → x.passenger_id = pid →
      (∀ y ∈ l1, y.passenger_id ≠ pid) →
      ts.read_passenger pid = .ok x) := by
  refine ⟨by simp [TransportSystem.create_route],
    by simp [TransportSystem.create_passenger],
    by simp [Route.add_vehicle], ?_, ?_, ?_⟩
  · intro rid l1 x l2 hsplit hx hl1
    have hfind : ts.find_route rid = some x := by
      show ts.routes.find? _ = some x
      rw [hsplit]
      exact find?_append_first _ _ _ _ (fun y hy => by simp [hl1 y hy]) (by simp [hx])
    exact ⟨hfind, read_route_of_find _ _ _ hfind⟩
  · intro vid l1 x l2 hsplit hx hl1
    show rt.vehicles.find? _ = some x
    rw [hsplit]
    exact find?_append_first _ _ _ _ (fun y hy => by simp [hl1 y hy]) (by simp [hx])
  · intro pid l1 x l2 hsplit hx hl1
    have hfind : ts.passengers.find? (fun y => y.passenger_id == pid) = some x := by
      rw [hsplit]
      exact find?_append_first _ _ _ _ (fun y hy => by simp [hl1 y hy]) (by simp [hx])
    simp [TransportSystem.read_passenger, hfind]

theorem duplicate_ids_and_first_match_witness :
    tsDup.routes = [] ++ routeW :: [routeW2] ∧ routeW.route_id = 1 ∧
    tsDup.find_route 1 = some routeW ∧ tsDup.read_route 1 = .ok routeW := by
  have h := (duplicate_ids_and_first_match tsDup routeW passW routeW busW).2.2.2.1
    1 [] routeW [routeW2] rfl (by decide) (by simp)
  exact ⟨rfl, by decide, h.1, h.2⟩

/-- Claim C2 fails as stated: loading a file whose routes list parses
but whose passengers list contains an entry missing a required key
raises a `FileOperationError`, yet leaves the registry's routes
collection already replaced — the observable state changed. -/
theorem load_not_atomic_counterexample :
    isOk (tsC2.load_from_json fsC2 "f.json").2 = false ∧
    (tsC2.load_from_json fsC2 "f.json").1.routes = [⟨7, "n", "s", "e", []⟩] ∧
    (tsC2.load_from_json fsC2 "f.json").1 ≠ tsC2 := by
  decide

/-- Claim C2 (amended): `update_route`, `delete_route` and
`Route.remove_vehicle` leave their state unchanged whenever they raise,
and `save_to_json` always succeeds; `load_from_json` leaves the registry
unchanged when the failure occurs before the routes assignment (missing
file, malformed JSON, or a routes entry failing to reconstruct) and
always leaves `schedules` unchanged when it raises — but a failure while
reconstructing passengers (or schedules) leaves the collections assigned
by the earlier statements already replaced. -/
theorem operations_atomicity (ts : TransportSystem) (rid vid : Int)
    (cs : List RouteChange) (rt : Route) (fs : FS) (fn : String) :
    (isOk (ts.update_route rid cs).2 = false → (ts.update_route rid cs).1 = ts) ∧
    (isOk (ts.delete_route rid).2 = false → (ts.delete_route rid).1 = ts) ∧
    (isOk (rt.remove_vehicle vid).2 = false → (rt.remove_vehicle vid).1 = rt) ∧
    ((ts.save_to_json fs fn).2 = .ok ()) ∧
    (isOk (ts.load_from_json fs fn).2 = false →
      (ts.load_from_json fs fn).1.schedules = ts.schedules) ∧
    (fsRead fs fn = none → (ts.load_from_json fs fn).1 = ts) ∧
    (fsRead fs fn = some .malformed → (ts.load_from_json fs fn).1 = ts) ∧
    (∀ j e, fsRead fs fn = some (.doc j) →
      parseEntities j "routes" Route.from_dict = .error e →
      (ts.load_from_json fs fn).1 = ts) ∧
    (∀ j rs e, fsRead fs fn = some (.doc j) →
      parseEntities j "routes" Route.from_dict = .ok rs →
      parseEntities j "passengers" Passenger.from_dict = .error e →
      (ts.load_from_json fs fn).1 = { ts with routes := rs }) ∧
    (∀ j rs ps e, fsRead fs fn = some (.doc j) →
      parseEntities j "routes" Route.from_dict = .ok rs →
      parseEntities j "passengers" Passenger.from_dict = .ok ps →
      parseEntities j "schedules" Schedule.from_dict = .error e →
      (ts.load_from_json fs fn).1 = { ts with routes := rs, passengers := ps }) := by
  refine ⟨?_, ?_, ?_, rfl, ?_, ?_, ?_, ?_, ?_, ?_⟩
  · cases hrr : ts.read_route rid with
    | error e => intro _; simp [TransportSystem.update_route, hrr]
    | ok r =>
      intro hko
      exfalso
      simp [TransportSystem.update_route, hrr, isOk] at hko
  · cases hrr : ts.read_route rid with
    | error e => intro _; simp [TransportSystem.delete_route, hrr]
    | ok r =>
      intro hko
      exfalso
      simp [TransportSystem.delete_route, hrr, isOk] at hko
  · cases hfv : rt.find_vehicle vid with
    | none => intro _; simp [Route.remove_vehicle, hfv]
    | some v =>
      intro hko
      exfalso
      simp [Route.remove_vehicle, hfv, isOk] at hko
  · cases hfr : fsRead fs fn with
    | none => intro _; simp [TransportSystem.load_from_json, hfr]
    | some c =>
      cases c with
      | malformed => intro _; simp [TransportSystem.load_from_json, hfr]
      | doc j =>
        cases hR : parseEntities j "routes" Route.from_dict with
        | error e => intro _; simp [TransportSystem.load_from_json, hfr, hR]
        | ok rs =>
          cases hP : parseEntities j "passengers" Passenger.from_dict with
          | error e => intro _; simp [TransportSystem.load_from_json, hfr, hR, hP]
          | ok ps =>
            cases hS : parseEntities j "schedules" Schedule.from_dict with
            | error e => intro _; simp [TransportSystem.load_from_json, hfr, hR, hP, hS]
            | ok ss =>
              intro hko
              exfalso
              simp [TransportSystem.load_from_json, hfr, hR, hP, hS, isOk] at hko
  · intro hfr
    simp [TransportSystem.load_from_json, hfr]
  · intro hfr
    simp [TransportSystem.load_from_json, hfr]
  · intro j e hfr hR
    simp [TransportSystem.load_from_json, hfr, hR]
  · intro j rs e hfr hR hP
    simp [TransportSystem.load_from_json, hfr, hR, hP]
  · intro j rs ps e hfr hR hP hS
    simp [TransportSystem.load_from_json, hfr, hR, hP, hS]

theorem operations_atomicity_witness :
    fsRead ([] : FS) "g.json" = none ∧
    (tsW.load_from_json ([] : FS) "g.json").1 = tsW := by
  have h := operations_atomicity tsW 0 0 [] routeW ([] : FS) "g.json"
  exact ⟨rfl, h.2.2.2.2.2.1 rfl⟩

/-- Claim C7: `load_from_json` replaces (does not merge into) the three
collections with the entities reconstructed from the document's lists; a
top-level key absent from the document yields an empty collection; and
every failure surfaces as a `FileOperationError` whose message carries
the underlying cause's message. -/
theorem load_from_json_contract (ts : TransportSystem) (fs : FS) (fn : String) :
    (∀ j rs ps ss, fsRead fs fn = some (.doc j) →
      parseEntities j "routes" Route.from_dict = .ok rs →
      parseEntities j "passengers" Passenger.from_dict = .ok ps →
      parseEntities j "schedules" Schedule.from_dict = .ok ss →
      ts.load_from_json fs fn = (⟨rs, ps, ss⟩, .ok ())) ∧
    (∀ (α : Type) (f : JValue → Except PyErr α) (kvs : List (String × JValue)) (key : String),
      kvs.lookup key = none → parseEntities (.jobj kvs) key f = .ok []) ∧
    (∀ e, (ts.load_from_json fs fn).2 = .error e →
      ∃ c : PyErr, e = .fileOperationError ("Ошибка загрузки JSON: " ++ c.str)) := by
  refine ⟨?_, ?_, ?_⟩
  · intro j rs ps ss hfr hR hP hS
    simp [TransportSystem.load_from_json, hfr, hR, hP, hS]
  · intro α f kvs key hk
    show dictGetD (.jobj kvs) key (.jarr []) >>= _ = _
    simp only [dictGetD, hk, Option.getD_none, except_bind_ok]
    rfl
  · cases hfr : fsRead fs fn with
    | none =>
      intro e he
      simp [TransportSystem.load_from_json, hfr] at he
      exact ⟨.fileNotFoundError fn, by rw [← he]; rfl⟩
    | some c =>
      cases c with
      | malformed =>
        intro e he
        simp [TransportSystem.load_from_json, hfr] at he
        exact ⟨.jsonDecodeError, by rw [← he]; rfl⟩
      | doc j =>
        cases hR : parseEntities j "routes" Route.from_dict with
        | error c =>
          intro e he
          simp [TransportSystem.load_from_json, hfr, hR] at he
          exact ⟨c, by rw [← he]; rfl⟩
        | ok rs =>
          cases hP : parseEntities j "passengers" Passenger.from_dict with
          | error c =>
            intro e he
            simp [TransportSystem.load_from_json, hfr, hR, hP] at he
            exact ⟨c, by rw [← he]; rfl⟩
          | ok ps =>
            cases hS : parseEntities j "schedules" Schedule.from_dict with
            | error c =>
              intro e he
              simp [TransportSystem.load_from_json, hfr, hR, hP, hS] at he
              exact ⟨c, by rw [← he]; rfl⟩
            | ok ss =>
              intro e he
              exfalso
              simp [TransportSystem.load_from_json, hfr, hR, hP, hS] at he

theorem load_from_json_contract_witness :
    fsRead (fsWrite [] "d.json" (.doc tsW.to_data)) "d.json" = some (.doc tsW.to_data) ∧
    TransportSystem.load_from_json ⟨[], [], []⟩ (fsWrite [] "d.json" (.doc tsW.to_data)) "d.json"
      = (⟨[routeW], [], []⟩, .ok ()) := by
  have h := (load_from_json_contract ⟨[], [], []⟩
      (fsWrite [] "d.json" (.doc tsW.to_data)) "d.json").1
    tsW.to_data [routeW] [] [] rfl rfl rfl rfl
  exact ⟨rfl, h⟩

/-- Claim C8: each entity's `from_dict` fails with a `KeyError` naming a
missing required key whenever any required key is absent from the
mapping, whatever the other values are; and `Route.from_dict`
additionally rebuilds its vehicle list from the nested vehicle mappings
under the `vehicles` key. -/
theorem from_dict_required_keys (kvs : List (String × JValue)) :
    ((kvs.lookup "vehicle_id" = none ∨ kvs.lookup "model" = none ∨
      kvs.lookup "capacity" = none ∨ kvs.lookup "type" = none) →
      ∃ k, k ∈ ["vehicle_id", "model", "capacity", "type"] ∧ kvs.lookup k = none ∧
        Vehicle.from_dict (.jobj kvs) = .error (.keyError k)) ∧
    ((kvs.lookup "route_id" = none ∨ kvs.lookup "number" = none ∨
      kvs.lookup "start_point" = none ∨ kvs.lookup "end_point" = none) →
      ∃ k, k ∈ ["route_id", "number", "start_point", "end_point"] ∧ kvs.lookup k = none ∧
        Route.from_dict (.jobj kvs) = .error (.keyError k)) ∧
    ((kvs.lookup "passenger_id" = none ∨ kvs.lookup "name" = none ∨
      kvs.lookup "card_number" = none) →
      ∃ k, k ∈ ["passenger_id", "name", "card_number"] ∧ kvs.lookup k = none ∧
        Passenger.from_dict (.jobj kvs) = .error (.keyError k)) ∧
    ((kvs.lookup "schedule_id" = none ∨ kvs.lookup "route_id" = none ∨
      kvs.lookup "departure_time" = none ∨ kvs.lookup "arrival_time" = none) →
      ∃ k, k ∈ ["schedule_id", "route_id", "departure_time", "arrival_time"] ∧
        kvs.lookup k = none ∧ Schedule.from_dict (.jobj kvs) = .error (.keyError k)) ∧
    (∀ rid num sp ep vds vs,
      kvs.lookup "route_id" = some (.jint rid) → kvs.lookup "number" = some (.jstr num) →
      kvs.lookup "start_point" = some (.jstr sp) →
      kvs.lookup "end_point" = some (.jstr ep) →
      kvs.lookup "vehicles" = some (.jarr vds) →
      mapFromDict Vehicle.from_dict vds = .ok vs →
      Route.from_dict (.jobj kvs) = .ok ⟨rid, num, sp, ep, vs⟩) := by
  refine ⟨?_, ?_, ?_, ?_, ?_⟩
  · intro h
    cases h1 : kvs.lookup "vehicle_id" with
    | none =>
      exact ⟨"vehicle_id", by simp, h1,
        by simp [Vehicle.from_dict, dictGet, h1, except_bind_error]⟩
    | some v1 =>
      cases h2 : kvs.lookup "model" with
      | none =>
        exact ⟨"model", by simp, h2,
          by simp [Vehicle.from_dict, dictGet, h1, h2, except_bind_ok, except_bind_error]⟩
      | some v2 =>
        cases h3 : kvs.lookup "capacity" with
        | none =>
          exact ⟨"capacity", by simp, h3,
            by simp [Vehicle.from_dict, dictGet, h1, h2, h3, except_bind_ok,
              except_bind_error]⟩
        | some v3 =>
          cases h4 : kvs.lookup "type" with
          | none =>
            exact ⟨"type", by simp, h4,
              by simp [Vehicle.from_dict, dictGet, h1, h2, h3, h4, except_bind_ok,
                except_bind_error]⟩
          | some v4 => rcases h with h | h | h | h <;> simp_all
  · intro h
    cases h1 : kvs.lookup "route_id" with
    | none =>
      exact ⟨"route_id", by simp, h1,
        by simp [Route.from_dict, dictGet, h1, except_bind_error]⟩
    | some v1 =>
      cases h2 : kvs.lookup "number" with
      | none =>
        exact ⟨"number", by simp, h2,
          by simp [Route.from_dict, dictGet, h1, h2, except_bind_ok, except_bind_error]⟩
      | some v2 =>
        cases h3 : kvs.lookup "start_point" with
        | none =>
          exact ⟨"start_point", by simp, h3,
            by simp [Route.from_dict, dictGet, h1, h2, h3, except_bind_ok,
              except_bind_error]⟩
        | some v3 =>
          cases h4 : kvs.lookup "end_point" with
          | none =>
            exact ⟨"end_point", by simp, h4,
              by simp [Route.from_dict, dictGet, h1, h2, h3, h4, except_bind_ok,
                except_bind_error]⟩
          | some v4 => rcases h with h | h | h | h <;> simp_all
  · intro h
    cases h1 : kvs.lookup "passenger_id" with
    | none =>
      exact ⟨"passenger_id", by simp, h1,
        by simp [Passenger.from_dict, dictGet, h1, except_bind_error]⟩
    | some v1 =>
      cases h2 : kvs.lookup "name" with
      | none =>
        exact ⟨"name", by simp, h2,
          by simp [Passenger.from_dict, dictGet, h1, h2, except_bind_ok, except_bind_error]⟩
      | some v2 =>
        cases h3 : kvs.lookup "card_number" with
        | none =>
          exact ⟨"card_number", by simp, h3,
            by simp [Passenger.from_dict, dictGet, h1, h2, h3, except_bind_ok,
              except_bind_error]⟩
        | some v3 => rcases h with h | h | h <;> simp_all
  · intro h
    cases h1 : kvs.lookup "schedule_id" with
    | none =>
      exact ⟨"schedule_id", by simp, h1,
        by simp [Schedule.from_dict, dictGet, h1, except_bind_error]⟩
    | some v1 =>
      cases h2 : kvs.lookup "route_id" with
      | none =>
        exact ⟨"route_id", by simp, h2,
          by simp [Schedule.from_dict, dictGet, h1, h2, except_bind_ok, except_bind_error]⟩
      | some v2 =>
        cases h3 : kvs.lookup "departure_time" with
        | none =>
          exact ⟨"departure_time", by simp, h3,
            by simp [Schedule.from_dict, dictGet, h1, h2, h3, except_bind_ok,
              except_bind_error]⟩
        | some v3 =>
          cases h4 : kvs.lookup "arrival_time" with
          | none =>
            exact ⟨"arrival_time", by simp, h4,
              by simp [Schedule.from_dict, dictGet, h1, h2, h3, h4, except_bind_ok,
                except_bind_error]⟩
          | some v4 => rcases h with h | h | h | h <;> simp_all
  · intro rid num sp ep vds vs h1 h2 h3 h4 h5 hvs
    simp [Route.from_dict, dictGet, dictGetD, h1, h2, h3, h4, h5, hvs, asInt, asStr,
      asPyList, except_bind_ok, foldl_add_vehicle]

theorem from_dict_required_keys_witness :
    (([("passenger_id", JValue.jint 1)] : List (String × JValue)).lookup "name" = none) ∧
    ∃ k, k ∈ ["passenger_id", "name", "card_number"] ∧
      ([("passenger_id", JValue.jint 1)] : List (String × JValue)).lookup k = none ∧
      Passenger.from_dict (.jobj [("passenger_id", .jint 1)]) = .error (.keyError k) :=
  ⟨rfl, (from_dict_required_keys [("passenger_id", .jint 1)]).2.2.1 (Or.inr (Or.inl rfl))⟩

end Transport
